import Mathlib

/-!
Verification of the commute-weather forecast assessment engine: a shallow
embedding of darksky.py, util.py and weather.py, followed by theorems about
the umbrella scoring function, the time-window filter, the retry loop, the
sample parser and the aggregation in weather.main.

Time model: an instant is the integer number of seconds since the Unix
epoch, and a pytz timezone is a fixed offset in seconds east of UTC.
Probabilities, intensities, temperatures and thresholds are rationals.
-/

namespace CommuteWeather

/-- A timezone annotation, as attached by pytz: a fixed offset in seconds
east of UTC. -/
structure Tz where
  offset : ℤ
deriving DecidableEq

/-- An aware datetime.datetime: an absolute instant, in seconds since the
Unix epoch, together with the timezone annotation it carries. astimezone
keeps the instant and changes the annotation; ordering of aware datetimes
compares instants. -/
structure AwareDatetime where
  utc : ℤ
  tz : Tz
deriving DecidableEq

/-- A datetime.time with a tzinfo annotation, as used for the work-day begin
and end bounds: seconds after midnight plus the carried timezone. -/
structure AwareTime where
  tz : Tz
  secs : ℤ
deriving DecidableEq

/-- The wall-clock seconds of an instant displayed in timezone z. -/
def localEpoch (d : AwareDatetime) (z : Tz) : ℤ :=
  d.utc + z.offset

/-- The calendar date, as a day index, that datetime.date gives for an
instant displayed in timezone z; floor division matches the calendar. -/
def dateIn (d : AwareDatetime) (z : Tz) : ℤ :=
  Int.ediv (localEpoch d z) 86400

/-- The time of day that datetime.time gives for an instant displayed in
timezone z, as seconds after midnight. -/
def todIn (d : AwareDatetime) (z : Tz) : ℤ :=
  Int.emod (localEpoch d z) 86400

/-- The inner helper of util.is_between: the time component of datetime_ in
the timezone of time_. The tzinfo annotation the source attaches to the
result does not affect comparisons, because both sides of each comparison in
is_between carry the same tzinfo, so the value is the wall-clock time of
day. -/
def normalise_ (datetime_ : AwareDatetime) (time_ : AwareTime) : ℤ :=
  todIn datetime_ time_.tz

/-- util.is_between: whether a datetime falls between the begin and end
times of day, each bound read in its own timezone. -/
def is_between (dt_ : AwareDatetime) (begin_ end_ : AwareTime) : Bool :=
  decide (begin_.secs ≤ normalise_ dt_ begin_) &&
    decide (normalise_ dt_ end_ ≤ end_.secs)

/-- darksky.PrecipitationSample.umbrella_score: the extent to which a sample
with the given precipitation probability and intensity suggests an umbrella
is required. -/
def umbrella_score (probability intensity : ℚ) : ℚ :=
  if probability = 0 ∧ intensity = 0 then 0
  else 1 - 1 / (probability * 10 + intensity)

/-- Modelled from the spec: darksky.HourSample, which weather.main consumes
but which is absent from the source tree; per the data model of the spec it
carries the sample instant, the precipitation probability and intensity, and
the apparent temperature. -/
structure HourSample where
  time : AwareDatetime
  probability : ℚ
  intensity : ℚ
  apparent_temp : ℚ
deriving DecidableEq

/-- Modelled from the spec: the umbrella score of an HourSample, which the
spec gives the same formula as darksky.PrecipitationSample.umbrella_score. -/
def HourSample.umbrella_score (s : HourSample) : ℚ :=
  CommuteWeather.umbrella_score s.probability s.intensity

/-- The filtering condition shared by weather.filter_samples and
darksky.assess_location: the sample, displayed in the timezone of the begin
bound, falls on the same calendar date as now, where now is read in its own
timezone; the sample instant is not before now; and is_between admits the
sample. -/
def sample_relevant (t now : AwareDatetime) (begin_ end_ : AwareTime) : Bool :=
  decide (dateIn t begin_.tz = dateIn now now.tz) &&
    decide (now.utc ≤ t.utc) &&
    is_between t begin_ end_

/-- weather.filter_samples: keep the hours of forecast that fall within the
remainder of the current working day. -/
def filter_samples (samples : List HourSample) (now : AwareDatetime)
    (begin_ end_ : AwareTime) : List HourSample :=
  samples.filter (fun s => sample_relevant s.time now begin_ end_)

/-- Modelled from the spec: the window condition as the spec words it, with
now converted into the timezone carried by the begin bound before its
calendar date is taken. Stated only for comparison against sample_relevant,
which is what the source implements. -/
def sample_relevant_spec (t now : AwareDatetime) (begin_ end_ : AwareTime) : Bool :=
  decide (dateIn t begin_.tz = dateIn now begin_.tz) &&
    decide (now.utc ≤ t.utc) &&
    is_between t begin_ end_

/-- The ways weather.main fails before reaching notification dispatch. -/
inductive MainError where
  /-- RuntimeError: the route must contain at least one location. -/
  | emptyRoute
  /-- RuntimeError: there are no more working hours today. -/
  | noWorkingHours
  /-- ValueError raised by the min or max builtin on an empty sequence. -/
  | emptyMinValueError
  /-- Modelled from the spec: the distinct NoForecastData condition of the
  spec error taxonomy; no statement in weather.main produces it. -/
  | noForecastData
deriving DecidableEq

/-- The outcome weather.main computes before building the notification. -/
structure AssessmentResult where
  umbrella : Bool
  over_threshold : List HourSample
  low : ℚ
  high : ℚ
deriving DecidableEq

/-- The aggregation in weather.main: score the filtered samples against the
threshold, and take the temperature range with the min and max builtins,
which raise ValueError on an empty sequence. -/
def assess_samples (samples : List HourSample) (threshold : ℚ) :
    Except MainError AssessmentResult :=
  match (samples.map (fun s => s.apparent_temp)).min?,
      (samples.map (fun s => s.apparent_temp)).max? with
  | some low, some high =>
    .ok ⟨decide (0 < (samples.filter
        (fun s => decide (threshold ≤ s.umbrella_score))).length),
      samples.filter (fun s => decide (threshold ≤ s.umbrella_score)), low, high⟩
  | _, _ => .error .emptyMinValueError

/-- weather.main up to the notification step, with the per-point forecast
fetch abstracted as a function from the route point to its parsed hourly
samples (darksky.location_hourly is not in the source tree; every fetch and
parse is assumed to succeed). The guard comparing the current time of day
with the day end bound is the wall-clock comparison the source performs. -/
def main_run (route : List (ℚ × ℚ)) (fetch : ℚ × ℚ → List HourSample)
    (now : AwareDatetime) (day_begin day_end : AwareTime) (threshold : ℚ) :
    Except MainError AssessmentResult :=
  if route.length = 0 then .error .emptyRoute
  else if day_end.secs < todIn now now.tz then .error .noWorkingHours
  else
    assess_samples
      ((route.map (fun p => filter_samples (fetch p) now day_begin day_end)).flatten)
      threshold

/-- A requests.Response, reduced to the two fields the retry loop reads. -/
structure Response where
  status_code : ℕ
  url : String
deriving DecidableEq

/-- requests.codes.ok -/
def codes_ok : ℕ := 200

/-- What a call of util.retry_loop does: the response it returns, or the
error it raises, together with how many times the request thunk ran and how
many times time.sleep ran; every sleep waits the same configured gap. -/
inductive RetryOutcome where
  | success (r : Response) (calls sleeps : ℕ)
  | runtimeError (last : Response) (calls sleeps : ℕ)
  | attributeError (calls sleeps : ℕ)
deriving DecidableEq

/-- The number of time.sleep calls an outcome records. -/
def RetryOutcome.sleeps : RetryOutcome → ℕ
  | .success _ _ s => s
  | .runtimeError _ _ s => s
  | .attributeError _ s => s

/-- The while loop of util.retry_loop: fuel is the number of iterations the
loop has left, and the Option argument is the current value of the response
variable. After the loop the source reads response.url, which is an
AttributeError when the variable still holds None; otherwise it raises
RuntimeError carrying the last response. -/
def retry_go (request : ℕ → Response) :
    ℕ → ℕ → ℕ → Option Response → RetryOutcome
  | 0, calls, sleeps, none => .attributeError calls sleeps
  | 0, calls, sleeps, some r => .runtimeError r calls sleeps
  | fuel + 1, calls, sleeps, _ =>
    let r := request calls
    if r.status_code = codes_ok then .success r (calls + 1) sleeps
    else retry_go request fuel (calls + 1) (sleeps + 1) (some r)

/-- util.retry_loop: issue a request until it succeeds, making at most the
given number of attempts; the thunk receives the index of the call it
serves. -/
def retry_loop (request : ℕ → Response) (attempts : ℤ) : RetryOutcome :=
  retry_go request attempts.toNat 0 0 none

/-- A JSON field value as the parser sees it: a number, or a non-numeric
value carried as text. -/
inductive PyValue where
  | num (q : ℚ)
  | str (s : String)
deriving DecidableEq

/-- KeyError from a missing dictionary key, or TypeError from
datetime.utcfromtimestamp applied to a non-number. -/
inductive ParseError where
  | keyError
  | typeError
deriving DecidableEq

/-- pytz.utc as a fixed offset. -/
def pytz_utc : Tz := ⟨0⟩

/-- An aware instant built by the parser: epoch seconds, fractions allowed,
plus the attached timezone. -/
structure ParsedDatetime where
  epoch : ℚ
  tz : Tz
deriving DecidableEq

/-- What darksky.PrecipitationSample.from_json builds: the constructor of
PrecipitationSample stores the probability and intensity fields untouched,
whatever their type. -/
structure ParsedSample where
  time : ParsedDatetime
  probability : PyValue
  intensity : PyValue
deriving DecidableEq

/-- Reading a key of the record: the value, when the key is present. -/
def lookup_field (json_ : List (String × PyValue)) (k : String) : Option PyValue :=
  (json_.find? (fun p => p.1 == k)).map (fun p => p.2)

/-- darksky.PrecipitationSample.from_json: localise the time field as a UTC
instant and store the probability and intensity fields as they come. A
missing key raises KeyError; a non-numeric time raises TypeError inside
datetime.utcfromtimestamp. -/
def from_json (json_ : List (String × PyValue)) : Except ParseError ParsedSample :=
  match lookup_field json_ "time" with
  | none => .error .keyError
  | some (.str _) => .error .typeError
  | some (.num t) =>
    match lookup_field json_ "precipProbability" with
    | none => .error .keyError
    | some p =>
      match lookup_field json_ "precipIntensity" with
      | none => .error .keyError
      | some i => .ok ⟨⟨t, pytz_utc⟩, p, i⟩

/-! Helper lemmas about the min and max of a list of rationals, mirroring
what the min and max builtins return on a nonempty sequence. -/

theorem foldl_min_spec (as : List ℚ) :
    ∀ a : ℚ, (as.foldl min a = a ∨ as.foldl min a ∈ as) ∧
      ∀ x ∈ a :: as, as.foldl min a ≤ x := by
  induction as with
  | nil => intro a; simp
  | cons b bs ih =>
    intro a
    refine ⟨?_, ?_⟩
    · rcases (ih (min a b)).1 with h | h
      · rcases min_choice a b with hm | hm
        · exact Or.inl (by rw [List.foldl_cons, h, hm])
        · exact Or.inr (by rw [List.foldl_cons, h, hm]; exact List.mem_cons_self b bs)
      · exact Or.inr (List.mem_cons_of_mem b (by simpa using h))
    · intro x hx
      have hle := (ih (min a b)).2
      rcases List.mem_cons.mp hx with rfl | hx
      · calc bs.foldl min (min x b) ≤ min x b := hle _ (List.mem_cons_self _ _)
          _ ≤ x := min_le_left x b
      · rcases List.mem_cons.mp hx with rfl | hx
        · calc bs.foldl min (min a x) ≤ min a x := hle _ (List.mem_cons_self _ _)
            _ ≤ x := min_le_right a x
        · exact hle x (List.mem_cons_of_mem _ hx)

theorem foldl_max_spec (as : List ℚ) :
    ∀ a : ℚ, (as.foldl max a = a ∨ as.foldl max a ∈ as) ∧
      ∀ x ∈ a :: as, x ≤ as.foldl max a := by
  induction as with
  | nil => intro a; simp
  | cons b bs ih =>
    intro a
    refine ⟨?_, ?_⟩
    · rcases (ih (max a b)).1 with h | h
      · rcases max_choice a b with hm | hm
        · exact Or.inl (by rw [List.foldl_cons, h, hm])
        · exact Or.inr (by rw [List.foldl_cons, h, hm]; exact List.mem_cons_self b bs)
      · exact Or.inr (List.mem_cons_of_mem b (by simpa using h))
    · intro x hx
      have hle := (ih (max a b)).2
      rcases List.mem_cons.mp hx with rfl | hx
      · calc x ≤ max x b := le_max_left x b
          _ ≤ bs.foldl max (max x b) := hle _ (List.mem_cons_self _ _)
      · rcases List.mem_cons.mp hx with rfl | hx
        · calc x ≤ max a x := le_max_right a x
            _ ≤ bs.foldl max (max a x) := hle _ (List.mem_cons_self _ _)
        · exact hle x (List.mem_cons_of_mem _ hx)

theorem min?_spec (l : List ℚ) (h : l ≠ []) :
    ∃ m, l.min? = some m ∧ m ∈ l ∧ ∀ x ∈ l, m ≤ x := by
  cases l with
  | nil => exact absurd rfl h
  | cons a as =>
    refine ⟨as.foldl min a, rfl, ?_, (foldl_min_spec as a).2⟩
    rcases (foldl_min_spec as a).1 with h1 | h1
    · rw [h1]; exact List.mem_cons_self a as
    · exact List.mem_cons_of_mem a h1

theorem max?_spec (l : List ℚ) (h : l ≠ []) :
    ∃ m, l.max? = some m ∧ m ∈ l ∧ ∀ x ∈ l, x ≤ m := by
  cases l with
  | nil => exact absurd rfl h
  | cons a as =>
    refine ⟨as.foldl max a, rfl, ?_, (foldl_max_spec as a).2⟩
    rcases (foldl_max_spec as a).1 with h1 | h1
    · rw [h1]; exact List.mem_cons_self a as
    · exact List.mem_cons_of_mem a h1

/-- C2: for every list of qualifying samples and every threshold, the
aggregation in weather.main succeeds exactly on a nonempty list; the
umbrella flag is set iff some sample scores at or above the threshold; the
low and high temperatures are the minimum and maximum apparent temperature
over the full qualifying list, not only over the triggering samples; and
the low never exceeds the high. -/
theorem assess_samples_c2 (samples : List HourSample) (threshold : ℚ)
    (h : samples ≠ []) :
    ∃ r, assess_samples samples threshold = .ok r ∧
      (r.umbrella = true ↔ ∃ s ∈ samples, threshold ≤ s.umbrella_score) ∧
      r.low ∈ samples.map (fun s => s.apparent_temp) ∧
      r.high ∈ samples.map (fun s => s.apparent_temp) ∧
      (∀ s ∈ samples, r.low ≤ s.apparent_temp ∧ s.apparent_temp ≤ r.high) ∧
      r.low ≤ r.high := by
  have htemps : samples.map (fun s => s.apparent_temp) ≠ [] := by
    simpa [List.map_eq_nil_iff] using h
  obtain ⟨lo, hlo, hlomem, hlole⟩ := min?_spec _ htemps
  obtain ⟨hi, hhi, hhimem, hhile⟩ := max?_spec _ htemps
  refine ⟨⟨decide (0 < (samples.filter
      (fun s => decide (threshold ≤ s.umbrella_score))).length),
      samples.filter (fun s => decide (threshold ≤ s.umbrella_score)), lo, hi⟩,
      ?_, ?_, hlomem, hhimem, ?_, hlole hi hhimem⟩
  · unfold assess_samples
    rw [hlo, hhi]
  · simp [List.length_pos]
  · intro s hs
    exact ⟨hlole _ (List.mem_map_of_mem _ hs), hhile _ (List.mem_map_of_mem _ hs)⟩

/-- Witness for C2 at a concrete one-sample list. -/
theorem assess_samples_c2_witness :
    ∃ r, assess_samples [⟨⟨0, ⟨0⟩⟩, 0, 0, 15⟩] (1/2) = .ok r ∧
      (r.umbrella = true ↔
        ∃ s ∈ [(⟨⟨0, ⟨0⟩⟩, 0, 0, 15⟩ : HourSample)], 1/2 ≤ s.umbrella_score) ∧
      r.low ∈ [(⟨⟨0, ⟨0⟩⟩, 0, 0, 15⟩ : HourSample)].map (fun s => s.apparent_temp) ∧
      r.high ∈ [(⟨⟨0, ⟨0⟩⟩, 0, 0, 15⟩ : HourSample)].map (fun s => s.apparent_temp) ∧
      (∀ s ∈ [(⟨⟨0, ⟨0⟩⟩, 0, 0, 15⟩ : HourSample)],
        r.low ≤ s.apparent_temp ∧ s.apparent_temp ≤ r.high) ∧
      r.low ≤ r.high :=
  assess_samples_c2 [⟨⟨0, ⟨0⟩⟩, 0, 0, 15⟩] (1/2) (List.cons_ne_nil _ _)

/-- C4 amended: when the route is nonempty, the working day is not yet over,
and zero samples survive filtering across all route points, weather.main
fails with the ValueError that the min builtin raises on an empty sequence,
rather than returning a decision; in particular no successful result, and so
no umbrellaRequired equal to false outcome, is produced. -/
theorem main_run_c4 (route : List (ℚ × ℚ)) (fetch : ℚ × ℚ → List HourSample)
    (now : AwareDatetime) (day_begin day_end : AwareTime) (threshold : ℚ)
    (hroute : route.length ≠ 0)
    (hhours : ¬ day_end.secs < todIn now now.tz)
    (hempty :
      (route.map (fun p => filter_samples (fetch p) now day_begin day_end)).flatten = []) :
    main_run route fetch now day_begin day_end threshold =
      .error .emptyMinValueError ∧
    ∀ r : AssessmentResult,
      main_run route fetch now day_begin day_end threshold ≠ .ok r := by
  have hmain : main_run route fetch now day_begin day_end threshold =
      .error .emptyMinValueError := by
    unfold main_run
    rw [if_neg hroute, if_neg hhours, hempty]
    rfl
  exact ⟨hmain, fun r hr => by rw [hmain] at hr; exact Except.noConfusion hr⟩

/-- Witness for C4 at a concrete route whose only fetched sample is dropped
by the filter. -/
theorem main_run_c4_witness :
    main_run [(0, 0)] (fun _ => [⟨⟨-86400, ⟨0⟩⟩, 0, 0, 10⟩]) ⟨0, ⟨0⟩⟩
        ⟨⟨0⟩, 0⟩ ⟨⟨0⟩, 86399⟩ (1/2) = .error .emptyMinValueError ∧
    ∀ r : AssessmentResult,
      main_run [(0, 0)] (fun _ => [⟨⟨-86400, ⟨0⟩⟩, 0, 0, 10⟩]) ⟨0, ⟨0⟩⟩
        ⟨⟨0⟩, 0⟩ ⟨⟨0⟩, 86399⟩ (1/2) ≠ .ok r :=
  main_run_c4 [(0, 0)] (fun _ => [⟨⟨-86400, ⟨0⟩⟩, 0, 0, 10⟩]) ⟨0, ⟨0⟩⟩
    ⟨⟨0⟩, 0⟩ ⟨⟨0⟩, 86399⟩ (1/2) (by decide) (by decide) rfl

/-- C4 counterexample: on a run where the fetch succeeds and every sample is
filtered out, weather.main reaches the min builtin on the empty temperature
sequence and fails with its ValueError, which is not the distinct
NoForecastData condition the claim names. -/
theorem main_run_c4_counterexample :
    main_run [(0, 0)] (fun _ => [⟨⟨-86400, ⟨0⟩⟩, 0, 0, 10⟩]) ⟨0, ⟨0⟩⟩
        ⟨⟨0⟩, 0⟩ ⟨⟨0⟩, 86399⟩ (1/2) = .error .emptyMinValueError ∧
    MainError.emptyMinValueError ≠ MainError.noForecastData :=
  ⟨rfl, by decide⟩

/-- C7: util.is_between admits exactly the datetimes whose time of day, read
in the timezone the bounds carry, lies in the closed interval from begin to
end; both boundaries are inclusive, so a time of day equal to either bound
is admitted whenever the window is nonempty. -/
theorem is_between_c7 (dt_ : AwareDatetime) (begin_ end_ : AwareTime)
    (hbe : begin_.tz = end_.tz) :
    (is_between dt_ begin_ end_ = true ↔
      begin_.secs ≤ todIn dt_ begin_.tz ∧ todIn dt_ begin_.tz ≤ end_.secs) ∧
    (begin_.secs ≤ end_.secs → todIn dt_ begin_.tz = begin_.secs →
      is_between dt_ begin_ end_ = true) ∧
    (begin_.secs ≤ end_.secs → todIn dt_ begin_.tz = end_.secs →
      is_between dt_ begin_ end_ = true) := by
  have hb : is_between dt_ begin_ end_ = true ↔
      (begin_.secs ≤ todIn dt_ begin_.tz ∧ todIn dt_ begin_.tz ≤ end_.secs) := by
    simp [is_between, normalise_, ← hbe]
  exact ⟨hb,
    fun hle h => hb.mpr ⟨h.ge, h.le.trans hle⟩,
    fun hle h => hb.mpr ⟨hle.trans h.ge, h.le⟩⟩

/-- Witness for C7 at a concrete window from 09:00 to 17:00 and a sample at
exactly 09:00. -/
theorem is_between_c7_witness :
    (is_between ⟨32400, ⟨0⟩⟩ ⟨⟨0⟩, 32400⟩ ⟨⟨0⟩, 61200⟩ = true ↔
      (32400 : ℤ) ≤ todIn ⟨32400, ⟨0⟩⟩ ⟨0⟩ ∧
        todIn ⟨32400, ⟨0⟩⟩ ⟨0⟩ ≤ 61200) ∧
    ((32400 : ℤ) ≤ 61200 → todIn ⟨32400, ⟨0⟩⟩ ⟨0⟩ = 32400 →
      is_between ⟨32400, ⟨0⟩⟩ ⟨⟨0⟩, 32400⟩ ⟨⟨0⟩, 61200⟩ = true) ∧
    ((32400 : ℤ) ≤ 61200 → todIn ⟨32400, ⟨0⟩⟩ ⟨0⟩ = 61200 →
      is_between ⟨32400, ⟨0⟩⟩ ⟨⟨0⟩, 32400⟩ ⟨⟨0⟩, 61200⟩ = true) :=
  is_between_c7 ⟨32400, ⟨0⟩⟩ ⟨⟨0⟩, 32400⟩ ⟨⟨0⟩, 61200⟩ rfl

/-- C6 amended: the filter of weather.filter_samples keeps a sample exactly
when all three conditions hold, with the first condition comparing the
calendar date of the sample displayed in the window timezone against the
calendar date of now read in the timezone now itself carries, not converted
into the window timezone; the remaining two conditions are as claimed. -/
theorem filter_samples_c6 (samples : List HourSample) (s : HourSample)
    (now : AwareDatetime) (begin_ end_ : AwareTime)
    (hbe : begin_.tz = end_.tz) :
    s ∈ filter_samples samples now begin_ end_ ↔
      s ∈ samples ∧ dateIn s.time begin_.tz = dateIn now now.tz ∧
        now.utc ≤ s.time.utc ∧
        begin_.secs ≤ todIn s.time begin_.tz ∧
        todIn s.time begin_.tz ≤ end_.secs := by
  rw [filter_samples, List.mem_filter]
  simp only [sample_relevant, Bool.and_eq_true, decide_eq_true_eq,
    (is_between_c7 s.time begin_ end_ hbe).1]
  tauto

/-- Witness for C6 at a concrete sample one hour after now, inside the
window. -/
theorem filter_samples_c6_witness :
    (⟨⟨3600, ⟨0⟩⟩, 0, 0, 5⟩ : HourSample) ∈
        filter_samples [⟨⟨3600, ⟨0⟩⟩, 0, 0, 5⟩] ⟨0, ⟨0⟩⟩ ⟨⟨0⟩, 0⟩ ⟨⟨0⟩, 86399⟩ ↔
      (⟨⟨3600, ⟨0⟩⟩, 0, 0, 5⟩ : HourSample) ∈ [⟨⟨3600, ⟨0⟩⟩, 0, 0, 5⟩] ∧
        dateIn ⟨3600, ⟨0⟩⟩ ⟨0⟩ = dateIn ⟨0, ⟨0⟩⟩ ⟨0⟩ ∧
        (0 : ℤ) ≤ 3600 ∧
        (0 : ℤ) ≤ todIn ⟨3600, ⟨0⟩⟩ ⟨0⟩ ∧
        todIn ⟨3600, ⟨0⟩⟩ ⟨0⟩ ≤ 86399 :=
  filter_samples_c6 [⟨⟨3600, ⟨0⟩⟩, 0, 0, 5⟩] ⟨⟨3600, ⟨0⟩⟩, 0, 0, 5⟩
    ⟨0, ⟨0⟩⟩ ⟨⟨0⟩, 0⟩ ⟨⟨0⟩, 86399⟩ rfl

/-- C6 counterexample: a sample and a now that denote the same instant,
placed against a window whose timezone sits five hours east of the timezone
now carries, near midnight. Converted into the window timezone both fall on
the next calendar day, so the condition the claim states admits the sample,
while the source compares against the date of now in its own timezone and
rejects it. -/
theorem filter_samples_c6_counterexample :
    sample_relevant ⟨86000, ⟨0⟩⟩ ⟨86000, ⟨0⟩⟩ ⟨⟨18000⟩, 0⟩ ⟨⟨18000⟩, 86399⟩ = false ∧
    sample_relevant_spec ⟨86000, ⟨0⟩⟩ ⟨86000, ⟨0⟩⟩ ⟨⟨18000⟩, 0⟩ ⟨⟨18000⟩, 86399⟩ = true ∧
    filter_samples [⟨⟨86000, ⟨0⟩⟩, 0, 0, 5⟩] ⟨86000, ⟨0⟩⟩
      ⟨⟨18000⟩, 0⟩ ⟨⟨18000⟩, 86399⟩ = [] := by
  refine ⟨by decide, by decide, rfl⟩

/-- When every request within the remaining fuel fails, the loop runs out of
fuel and raises RuntimeError with the last response, having called the thunk
once per unit of fuel and slept after every failure, the final one
included. -/
theorem retry_go_fail (request : ℕ → Response) :
    ∀ (fuel calls sleeps : ℕ) (prev : Option Response), 0 < fuel →
      (∀ k, k < fuel → (request (calls + k)).status_code ≠ codes_ok) →
      retry_go request fuel calls sleeps prev =
        .runtimeError (request (calls + fuel - 1)) (calls + fuel) (sleeps + fuel) := by
  intro fuel
  induction fuel with
  | zero => intro calls sleeps prev hpos; exact absurd hpos (by simp)
  | succ f ih =>
    intro calls sleeps prev _ hfail
    have h0 : (request calls).status_code ≠ codes_ok := by
      simpa using hfail 0 (Nat.succ_pos f)
    cases f with
    | zero => simp [retry_go, h0]
    | succ g =>
      have step : retry_go request (g + 1 + 1) calls sleeps prev =
          retry_go request (g + 1) (calls + 1) (sleeps + 1) (some (request calls)) := by
        simp [retry_go, h0]
      have h3 := ih (calls + 1) (sleeps + 1) (some (request calls)) (Nat.succ_pos g)
        (fun k hk => by
          have h4 := hfail (k + 1) (by omega)
          have e : calls + 1 + k = calls + (k + 1) := by omega
          rw [e]; exact h4)
      rw [step, h3]
      have e1 : calls + 1 + (g + 1) - 1 = calls + (g + 1 + 1) - 1 := by omega
      have e2 : calls + 1 + (g + 1) = calls + (g + 1 + 1) := by omega
      have e3 : sleeps + 1 + (g + 1) = sleeps + (g + 1 + 1) := by omega
      rw [e1, e2, e3]

/-- When the first success within the remaining fuel comes at relative index
k, the loop returns that response at once, having called the thunk k plus
one times and slept after each of the k preceding failures only. -/
theorem retry_go_succ (request : ℕ → Response) :
    ∀ (fuel k calls sleeps : ℕ) (prev : Option Response), k < fuel →
      (∀ j, j < k → (request (calls + j)).status_code ≠ codes_ok) →
      (request (calls + k)).status_code = codes_ok →
      retry_go request fuel calls sleeps prev =
        .success (request (calls + k)) (calls + k + 1) (sleeps + k) := by
  intro fuel
  induction fuel with
  | zero => intro k calls sleeps prev hk; exact absurd hk (by omega)
  | succ f ih =>
    intro k calls sleeps prev hk hfail hok
    cases k with
    | zero =>
      have hok0 : (request calls).status_code = codes_ok := by simpa using hok
      simp [retry_go, hok0]
    | succ m =>
      have h0 : (request calls).status_code ≠ codes_ok := by
        simpa using hfail 0 (Nat.succ_pos m)
      have step : retry_go request (f + 1) calls sleeps prev =
          retry_go request f (calls + 1) (sleeps + 1) (some (request calls)) := by
        simp [retry_go, h0]
      have h3 := ih m (calls + 1) (sleeps + 1) (some (request calls)) (by omega)
        (fun j hj => by
          have h4 := hfail (j + 1) (by omega)
          have e : calls + 1 + j = calls + (j + 1) := by omega
          rw [e]; exact h4)
        (by
          have e : calls + 1 + m = calls + (m + 1) := by omega
          rw [e]; exact hok)
      rw [step, h3]
      have e1 : calls + 1 + m = calls + (m + 1) := by omega
      have e2 : sleeps + 1 + m = sleeps + (m + 1) := by omega
      rw [e1, e2]

/-- C3 corrected: util.retry_loop sleeps the fixed gap after every failed
attempt, including the final one taken just before the exhaustion error is
raised, so a run of n failing attempts sleeps n times rather than n minus
one; and, as the claim instantiates, a thunk that fails twice and then
succeeds under three attempts yields the successful response after sleeping
exactly twice. -/
theorem retry_loop_c3 (request request2 : ℕ → Response) (n : ℕ) (hn : 1 ≤ n)
    (hfail : ∀ k, k < n → (request k).status_code ≠ codes_ok)
    (h0 : (request2 0).status_code ≠ codes_ok)
    (h1 : (request2 1).status_code ≠ codes_ok)
    (h2 : (request2 2).status_code = codes_ok) :
    (retry_loop request (n : ℤ)).sleeps = n ∧
    retry_loop request2 3 = .success (request2 2) 3 2 := by
  constructor
  · rw [retry_loop, Int.toNat_natCast,
      retry_go_fail request n 0 0 none (by omega) (by simpa using hfail)]
    simp [RetryOutcome.sleeps]
  · rw [retry_loop, show ((3 : ℤ)).toNat = 3 from rfl,
      retry_go_succ request2 3 2 0 0 none (by omega)
        (fun j hj => by interval_cases j <;> simpa)
        (by simpa using h2)]

/-- C3 counterexample: one attempt that fails leaves no further attempt, yet
the source sleeps once before raising, where the claim requires no delay
once attempts are exhausted. -/
theorem retry_loop_c3_counterexample :
    retry_loop (fun _ => ⟨500, "u"⟩) 1 = .runtimeError ⟨500, "u"⟩ 1 1 ∧
    (retry_loop (fun _ => ⟨500, "u"⟩) 1).sleeps ≠ 0 :=
  ⟨rfl, by decide⟩

/-- Witness for C3: a thunk that always fails under one attempt sleeps once,
and a thunk that fails at indices zero and one and succeeds at index two
under three attempts returns that response after two sleeps. -/
theorem retry_loop_c3_witness :
    (retry_loop (fun _ => ⟨500, "u"⟩) ((1 : ℕ) : ℤ)).sleeps = 1 ∧
    retry_loop (fun i => if i < 2 then ⟨500, "u"⟩ else ⟨200, "u"⟩) 3 =
      .success ((fun i => if i < 2 then ⟨500, "u"⟩ else ⟨200, "u"⟩) 2) 3 2 :=
  retry_loop_c3 (fun _ => ⟨500, "u"⟩)
    (fun i => if i < 2 then ⟨500, "u"⟩ else ⟨200, "u"⟩) 1 (by decide)
    (fun k _ => by exact (by decide : (500 : ℕ) ≠ 200)) (by decide) (by decide)
    (by decide)

/-- C8: util.retry_loop returns the first successful response immediately,
after exactly the number of calls needed to reach it; and when the thunk
fails on every one of the allowed attempts it raises the exhaustion
RuntimeError carrying the last response after calling the thunk exactly
attempts times. -/
theorem retry_loop_c8 (request : ℕ → Response) (n k : ℕ) (hn : 1 ≤ n)
    (hk : k < n) :
    ((∀ j, j < n → (request j).status_code ≠ codes_ok) →
      retry_loop request (n : ℤ) = .runtimeError (request (n - 1)) n n) ∧
    ((∀ j, j < k → (request j).status_code ≠ codes_ok) →
      (request k).status_code = codes_ok →
      retry_loop request (n : ℤ) = .success (request k) (k + 1) k) := by
  constructor
  · intro hfail
    rw [retry_loop, Int.toNat_natCast,
      retry_go_fail request n 0 0 none (by omega) (by simpa using hfail)]
    simp
  · intro hfail hok
    rw [retry_loop, Int.toNat_natCast,
      retry_go_succ request n k 0 0 none hk (by simpa using hfail)
        (by simpa using hok)]
    simp

/-- Witness for C8: a thunk that always fails under two attempts raises the
exhaustion error after exactly two calls and a thunk succeeding at once is
returned after one call. -/
theorem retry_loop_c8_witness :
    retry_loop (fun _ => ⟨500, "u"⟩) ((2 : ℕ) : ℤ) =
      .runtimeError ⟨500, "u"⟩ 2 2 ∧
    retry_loop (fun _ => ⟨200, "u"⟩) ((2 : ℕ) : ℤ) =
      .success ⟨200, "u"⟩ 1 0 :=
  ⟨(retry_loop_c8 (fun _ => ⟨500, "u"⟩) 2 1 (by decide) (by decide)).1
      (fun j _ => by exact (by decide : (500 : ℕ) ≠ 200)),
    (retry_loop_c8 (fun _ => ⟨200, "u"⟩) 2 0 (by decide) (by decide)).2
      (fun j hj => absurd hj (by omega)) (by decide)⟩

/-- C10: with a nonpositive attempts argument the while loop of
util.retry_loop never runs, the thunk is never invoked, and the source fails
reading the url attribute of the still unset response variable, an
AttributeError, instead of raising the documented exhaustion error. -/
theorem retry_loop_c10 (request : ℕ → Response) (attempts : ℤ)
    (h : attempts ≤ 0) :
    retry_loop request attempts = .attributeError 0 0 := by
  rw [retry_loop, Int.toNat_of_nonpos h]
  rfl

/-- Witness for C10 at attempts equal to minus two. -/
theorem retry_loop_c10_witness :
    retry_loop (fun _ => ⟨500, "u"⟩) (-2) = .attributeError 0 0 :=
  retry_loop_c10 (fun _ => ⟨500, "u"⟩) (-2) (by decide)

/-- C1: the inputs probability zero and intensity one half satisfy every
precondition of the claim, yet the source computes the score minus one,
which lies outside the promised interval from zero to one; this also
contradicts the docstring of umbrella_score, which promises a score between
zero and one inclusive. -/
theorem umbrella_score_c1 :
    (0 : ℚ) ≤ 0 ∧ (0 : ℚ) ≤ 1 ∧ (0 : ℚ) ≤ 1 / 2 ∧
    ¬((0 : ℚ) = 0 ∧ (1 / 2 : ℚ) = 0) ∧
    umbrella_score 0 (1 / 2) = -1 ∧
    ¬(0 ≤ umbrella_score 0 (1 / 2)) := by
  norm_num [umbrella_score]

/-- C5 amended: the score is monotone non-decreasing in the probability and
in the intensity separately over all valid inputs whose lower point is not
the origin; from the origin itself the score can drop, because the zero
special case returns zero while nearby scores are negative. -/
theorem umbrella_score_c5 (p q i j : ℚ) (hp : 0 ≤ p) (hi : 0 ≤ i)
    (hz : ¬(p = 0 ∧ i = 0)) :
    (p ≤ q → umbrella_score p i ≤ umbrella_score q i) ∧
    (i ≤ j → umbrella_score p i ≤ umbrella_score p j) := by
  have hd : 0 < p * 10 + i := by
    rcases lt_or_eq_of_le hp with h | h
    · nlinarith
    · rcases lt_or_eq_of_le hi with h2 | h2
      · nlinarith
      · exact absurd ⟨h.symm, h2.symm⟩ hz
  constructor
  · intro hpq
    have hq : ¬(q = 0 ∧ i = 0) := by
      rintro ⟨rfl, rfl⟩
      exact hz ⟨le_antisymm (by linarith) hp, rfl⟩
    rw [umbrella_score, umbrella_score, if_neg hz, if_neg hq]
    have hd2 : p * 10 + i ≤ q * 10 + i := by nlinarith
    have := one_div_le_one_div_of_le hd hd2
    linarith
  · intro hij
    have hj : ¬(p = 0 ∧ j = 0) := by
      rintro ⟨rfl, rfl⟩
      exact hz ⟨rfl, le_antisymm (by linarith) hi⟩
    rw [umbrella_score, umbrella_score, if_neg hz, if_neg hj]
    have hd2 : p * 10 + i ≤ p * 10 + j := by nlinarith
    have := one_div_le_one_div_of_le hd hd2
    linarith

/-- Witness for C5 away from the origin, raising the probability from one
to two at intensity zero. -/
theorem umbrella_score_c5_witness :
    umbrella_score 1 0 ≤ umbrella_score 2 0 :=
  (umbrella_score_c5 1 2 0 0 (by decide) (by decide) (by decide)).1 (by decide)

/-- C5 counterexample: raising the probability from zero to one twentieth at
intensity zero strictly lowers the score, from zero to minus one, so the
score is not monotone non-decreasing in the probability on the full valid
domain. -/
theorem umbrella_score_c5_counterexample :
    (0 : ℚ) ≤ 1 / 20 ∧ (1 / 20 : ℚ) ≤ 1 ∧ (0 : ℚ) ≤ 0 ∧
    umbrella_score (1 / 20) 0 < umbrella_score 0 0 := by
  norm_num [umbrella_score]

/-- C9 amended: the parser raises KeyError when any of the three required
fields is missing, and TypeError when the time field is present but not
numeric; the probability and intensity fields are stored without any
numeric validation; and on success the sample time is the Unix timestamp
localised as a UTC instant. -/
theorem from_json_c9 (json_ : List (String × PyValue)) (s : String) (t : ℚ)
    (p i : PyValue) :
    (lookup_field json_ "time" = none →
      from_json json_ = .error .keyError) ∧
    (lookup_field json_ "time" = some (.str s) →
      from_json json_ = .error .typeError) ∧
    (lookup_field json_ "time" = some (.num t) →
      lookup_field json_ "precipProbability" = none →
      from_json json_ = .error .keyError) ∧
    (lookup_field json_ "time" = some (.num t) →
      lookup_field json_ "precipProbability" = some p →
      lookup_field json_ "precipIntensity" = none →
      from_json json_ = .error .keyError) ∧
    (lookup_field json_ "time" = some (.num t) →
      lookup_field json_ "precipProbability" = some p →
      lookup_field json_ "precipIntensity" = some i →
      from_json json_ = .ok ⟨⟨t, pytz_utc⟩, p, i⟩) := by
  refine ⟨?_, ?_, ?_, ?_, ?_⟩
  · intro h1; rw [from_json, h1]
  · intro h1; rw [from_json, h1]
  · intro h1 h2; rw [from_json, h1, h2]
  · intro h1 h2 h3; rw [from_json, h1, h2, h3]
  · intro h1 h2 h3; rw [from_json, h1, h2, h3]

/-- Witness for C9 at a complete record with a numeric time. -/
theorem from_json_c9_witness :
    from_json [("time", .num 5), ("precipProbability", .num 1),
        ("precipIntensity", .num 2)] = .ok ⟨⟨5, pytz_utc⟩, .num 1, .num 2⟩ :=
  (from_json_c9 [("time", .num 5), ("precipProbability", .num 1),
      ("precipIntensity", .num 2)] "" 5 (.num 1) (.num 2)).2.2.2.2 rfl rfl rfl

/-- C9 counterexample: a record whose precipProbability field is not numeric
is parsed without any error, the raw text being stored in the sample, where
the claim requires a MalformedSample failure. -/
theorem from_json_c9_counterexample :
    from_json [("time", .num 0), ("precipProbability", .str "wet"),
        ("precipIntensity", .num 0)] =
      .ok ⟨⟨0, pytz_utc⟩, .str "wet", .num 0⟩ := rfl

end CommuteWeather
